import Mathlib

/-!
Shallow embedding of the SDR output core of ODR-DabMod
(src/output/SDR.cpp and src/output/Dexter.cpp).

Machine integers are modelled as `Nat`/`Int` with explicit reductions
modulo `2^32` / `2^64` where the C++ code performs (or may perform)
wrapping arithmetic.  C++ `double` quantities that only enter through
order comparisons (timestamps, margins, sensor readings) are modelled
as `ℚ`.  Hardware attribute reads and the host clock are passed in as
explicit environment values; attribute writes are recorded in the
returned state.  A C++ `throw` is modelled with `Option` (`none` =
exception) or a dedicated outcome constructor.
-/

namespace ODRDabMod

/-- `DSP_CLOCK` from Dexter.cpp: `2048000uLL * 80`. -/
def DSP_CLOCK : ℕ := 2048000 * 80

/-- `TRANSMISSION_FRAME_LEN_SAMPS` from Dexter.cpp: `(2656 + 76 * 2552) * 2`. -/
def TRANSMISSION_FRAME_LEN_SAMPS : ℕ := (2656 + 76 * 2552) * 2

/-- `TIMESTAMP_PPS_PER_DSP_CLOCKS = DSP_CLOCK / 16384000` from Dexter.cpp. -/
def TIMESTAMP_PPS_PER_DSP_CLOCKS : ℕ := DSP_CLOCK / 16384000

/-- `FRAMES_MAX_SIZE_UNSYNC` from SDR.cpp. -/
def FRAMES_MAX_SIZE_UNSYNC : ℕ := 8

/-- `FRAMES_MAX_SIZE_SYNC` from SDR.cpp. -/
def FRAMES_MAX_SIZE_SYNC : ℕ := 250

/-- `TIMESTAMP_ABORT_FUTURE` from SDR.cpp (a `double` equal to 100). -/
def TIMESTAMP_ABORT_FUTURE : ℚ := 100

/-- `2^32`, the modulus of C++ `uint32_t` arithmetic. -/
def U32 : ℕ := 2 ^ 32

/-- `2^64`, the modulus of C++ `uint64_t` arithmetic. -/
def U64 : ℕ := 2 ^ 64

/-- `struct frame_timestamp` fields used by the output core. -/
structure FrameTimestamp where
  fct : ℕ
  timestamp_valid : Bool
  timestamp_sec : ℕ
  timestamp_pps : ℕ
  offset_changed : Bool
deriving DecidableEq

/-- `frame_timestamp::get_real_secs() = timestamp_sec + timestamp_pps / 16384000.0`. -/
def FrameTimestamp.get_real_secs (ts : FrameTimestamp) : ℚ :=
  (ts.timestamp_sec : ℚ) + (ts.timestamp_pps : ℚ) / 16384000

/-- `frame_timestamp::offset_to_system_time() = get_real_secs() - now()`;
the host wall clock `now` is an explicit argument. -/
def FrameTimestamp.offset_to_system_time (ts : FrameTimestamp) (now : ℚ) : ℚ :=
  ts.get_real_secs - now

/-- `struct FrameData`: the IQ buffer is modelled by its byte length only,
which is all the output-path control flow inspects. -/
structure FrameData where
  bufLen : ℕ
  sampleSize : ℕ
  ts : FrameTimestamp
deriving DecidableEq

/-- The fields of `SDRDeviceConfig` read by the code under study. -/
structure SDRDeviceConfig where
  enableSync : Bool
  muteNoTimestamps : Bool
  muting : Bool
  sampleRate : ℕ
  maxGPSHoldoverTime : ℕ
deriving DecidableEq

/-! ## SDR output stage (SDR.cpp) -/

/-- The per-worker last-timestamp tracking state of `SDR`
(`last_tx_time_initialised`, `last_tx_second`, `last_tx_pps`). -/
structure SDRLastTx where
  initialised : Bool
  last_tx_second : ℕ
  last_tx_pps : ℕ
deriving DecidableEq

/-- Which exit `SDR::handle_frame` takes.  Each constructor corresponds to
one `return` / `throw` site in the source:
* `droppedClkNotOk` — the `is_clk_source_ok` gate (silent drop);
* `droppedNoTimestamp` — the `muteNoTimestamps` gate (logged drop);
* `droppedIncompleteTs` — the inner `not frame.ts.timestamp_valid` guard;
* `droppedPast` — the "Timestamp in the past" warn + refresh + drop;
* `fatalFuture` — the `throw std::runtime_error` for far-future timestamps;
* `droppedMuted` — the muting gate (refresh + drop);
* `transmitted` — the final `m_device->transmit_frame` call. -/
inductive HFOutcome
  | droppedClkNotOk
  | droppedNoTimestamp
  | droppedIncompleteTs
  | droppedPast
  | fatalFuture
  | droppedMuted
  | transmitted
deriving DecidableEq

/-- Result of one `SDR::handle_frame` call: the exit taken, how many times
`m_device->require_timestamp_refresh()` was called, whether the
"timestamp irregularity" warning was emitted, and the updated
last-timestamp state. -/
structure HFResult where
  outcome : HFOutcome
  refreshRequests : ℕ
  warnedIrregularity : Bool
  state : SDRLastTx
deriving DecidableEq

/-- Structural helper for `pps_carry`: the first argument is fuel, always
sufficient because every loop iteration strictly decreases `pps`. -/
def ppsCarryAux : ℕ → ℕ → ℕ → ℕ × ℕ
  | 0, sec, pps => (sec, pps)
  | fuel + 1, sec, pps =>
      if 16384000 ≤ pps then ppsCarryAux fuel ((sec + 1) % U32) (pps - 16384000)
      else (sec, pps)

/-- The `while (expected_pps >= 16384000) { expected_sec++; expected_pps -= 16384000; }`
loop of `SDR::handle_frame`, on `uint32_t` values (see `pps_carry_eq` for
the loop-shaped unfolding). -/
def pps_carry (sec pps : ℕ) : ℕ × ℕ :=
  ppsCarryAux pps sec pps

/-- One unit of extra fuel changes nothing once the fuel covers `pps`. -/
theorem ppsCarryAux_stable (fuel sec pps : ℕ) (h : pps ≤ fuel) :
    ppsCarryAux (fuel + 1) sec pps = ppsCarryAux fuel sec pps := by
  induction fuel generalizing sec pps with
  | zero =>
      have : pps = 0 := by omega
      subst this
      simp [ppsCarryAux]
  | succ n ih =>
      by_cases hc : 16384000 ≤ pps
      · have hstep : ∀ f, ppsCarryAux (f + 1) sec pps
            = ppsCarryAux f ((sec + 1) % U32) (pps - 16384000) := by
          intro f
          simp [ppsCarryAux, hc]
        rw [hstep (n + 1), hstep n]
        exact ih _ _ (by omega)
      · simp [ppsCarryAux, hc]

/-- `ppsCarryAux` computes `pps_carry` from any fuel covering `pps`. -/
theorem ppsCarryAux_fuel (fuel sec pps : ℕ) (h : pps ≤ fuel) :
    ppsCarryAux fuel sec pps = pps_carry sec pps := by
  induction fuel with
  | zero =>
      have : pps = 0 := by omega
      subst this
      rfl
  | succ n ih =>
      rcases Nat.lt_or_ge pps (n + 1) with hlt | hge
      · rw [ppsCarryAux_stable n sec pps (by omega)]
        exact ih (by omega)
      · have : pps = n + 1 := by omega
        subst this
        rfl

/-- `pps_carry` satisfies the source's loop equation. -/
theorem pps_carry_eq (sec pps : ℕ) :
    pps_carry sec pps =
      if 16384000 ≤ pps then pps_carry ((sec + 1) % U32) (pps - 16384000)
      else (sec, pps) := by
  by_cases hc : 16384000 ≤ pps
  · rw [if_pos hc]
    rw [show pps_carry sec pps
          = ppsCarryAux pps sec pps from rfl]
    obtain ⟨m, rfl⟩ : ∃ m, pps = m + 1 := ⟨pps - 1, by omega⟩
    rw [show ppsCarryAux (m + 1) sec (m + 1)
          = ppsCarryAux m ((sec + 1) % U32) (m + 1 - 16384000) by
        simp [ppsCarryAux, hc]]
    exact ppsCarryAux_fuel _ _ _ (by omega)
  · rw [if_neg hc]
    cases pps with
    | zero => rfl
    | succ m => simp [pps_carry, ppsCarryAux, hc]

/-- The expected next `(sec, pps)` computation of `SDR::handle_frame`:
`increment = (uint64_t)sizeIn * 16384000ul / (uint64_t)sampleRate` with
`sizeIn = buf.size() / sampleSize`, then
`expected_sec = last_tx_second + increment / 16384000`,
`expected_pps = last_tx_pps + increment % 16384000` (both `uint32_t`),
then the carry loop. -/
def expected_tx_time (st : SDRLastTx) (sampleRate bufLen sampleSize : ℕ) : ℕ × ℕ :=
  let sizeIn := bufLen / sampleSize
  let increment := sizeIn % U64 * 16384000 % U64 / sampleRate
  let expected_sec := (st.last_tx_second + increment / 16384000) % U32
  let expected_pps := (st.last_tx_pps + increment % 16384000) % U32
  pps_carry expected_sec expected_pps

/-- The synchronous block of `SDR::handle_frame` (the body of
`if (m_config.enableSync and time_spec.timestamp_valid)`, SDR.cpp lines
269-352, followed by the shared muting tail, lines 354-361). -/
def handle_frame_sync (cfg : SDRDeviceConfig) (st : SDRLastTx)
    (device_time : ℚ) (frame : FrameData) : HFResult :=
  let tx_second := frame.ts.timestamp_sec
  let tx_pps := frame.ts.timestamp_pps
  if !frame.ts.timestamp_valid then
    ⟨.droppedIncompleteTs, 0, false, st⟩
  else
    let r1 := if frame.ts.offset_changed then 1 else 0
    let mismatch :=
      if st.initialised then
        let ex := expected_tx_time st cfg.sampleRate frame.bufLen frame.sampleSize
        ex.1 != tx_second || ex.2 != tx_pps
      else false
    let r2 := if mismatch then 1 else 0
    let st' : SDRLastTx := ⟨true, tx_second, tx_pps⟩
    if frame.ts.get_real_secs < device_time then
      ⟨.droppedPast, r1 + r2 + 1, mismatch, st'⟩
    else if frame.ts.get_real_secs > device_time + TIMESTAMP_ABORT_FUTURE then
      ⟨.fatalFuture, r1 + r2, mismatch, st'⟩
    else if cfg.muting then
      ⟨.droppedMuted, r1 + r2 + 1, mismatch, st'⟩
    else
      ⟨.transmitted, r1 + r2, mismatch, st'⟩

/-- `SDR::handle_frame` (SDR.cpp lines 254-361).  The device is abstract
here: `clk_source_ok` is the value returned by `m_device->is_clk_source_ok()`
and `device_time` the value returned by `m_device->get_real_secs()`. -/
def handle_frame (cfg : SDRDeviceConfig) (st : SDRLastTx) (clk_source_ok : Bool)
    (device_time : ℚ) (frame : FrameData) : HFResult :=
  if !clk_source_ok then
    ⟨.droppedClkNotOk, 0, false, st⟩
  else if cfg.enableSync && cfg.muteNoTimestamps && !frame.ts.timestamp_valid then
    ⟨.droppedNoTimestamp, 0, false, st⟩
  else if cfg.enableSync && frame.ts.timestamp_valid then
    handle_frame_sync cfg st device_time frame
  else
    if cfg.muting then
      ⟨.droppedMuted, 1, false, st⟩
    else
      ⟨.transmitted, 0, false, st⟩

/-- The `SDR::SDR` constructor's effect on the configuration:
`m_config.muting = false` (SDR.cpp line 68), everything else untouched. -/
def SDR_constructor_config (config : SDRDeviceConfig) : SDRDeviceConfig :=
  { config with muting := false }

/-! ## Frame queue (ThreadsafeQueue, used by SDR::process_metadata) -/

/-- The result structure returned by `push_overflow`. -/
structure PushResult (α : Type) where
  queue : List α
  overflowed : Bool
  new_size : ℕ
deriving DecidableEq

/-- Modelled from the spec: the repository's `ThreadsafeQueue::push_overflow`
implementation is not among the provided sources (SDR.cpp only calls it).
Spec §4.3: "If current length < max, enqueue and return
{overflowed: false, new_size}.  Else drop the OLDEST item, enqueue the
new one, return {overflowed: true, new_size}."  The queue is a list with
its head the oldest element. -/
def push_overflow {α : Type} (q : List α) (item : α) (maxSize : ℕ) : PushResult α :=
  if q.length < maxSize then ⟨q ++ [item], false, (q ++ [item]).length⟩
  else ⟨q.tail ++ [item], true, (q.tail ++ [item]).length⟩

/-- The enqueue step of `SDR::process_metadata` (SDR.cpp lines 190-194):
`max_size = enableSync ? FRAMES_MAX_SIZE_SYNC : FRAMES_MAX_SIZE_UNSYNC`,
push with overflow, and `num_queue_overflows += r.overflowed ? 1 : 0`.
Returns the new queue, the new overflow counter, and `r.overflowed`. -/
def process_metadata_push {α : Type} (enableSync : Bool) (q : List α) (item : α)
    (num_queue_overflows : ℕ) : List α × ℕ × Bool :=
  let max_size := if enableSync then FRAMES_MAX_SIZE_SYNC else FRAMES_MAX_SIZE_UNSYNC
  let r := push_overflow q item max_size
  (r.queue, num_queue_overflows + (if r.overflowed then 1 else 0), r.overflowed)

/-! ## Dexter clock-alignment state machine (Dexter.cpp) -/

/-- `enum class DexterClockState`. -/
inductive DexterClockState
  | Startup
  | Normal
  | Holdover
deriving DecidableEq

/-- The clock-alignment state owned by `Dexter`:
`m_clock_state`, `m_utc_seconds_at_startup`, `m_clock_count_at_startup`,
`m_holdover_since` (a `steady_clock::time_point`, modelled in seconds),
`m_holdover_since_t` (a `time_t`). -/
structure DexterClock where
  clock_state : DexterClockState
  utc_seconds_at_startup : ℕ
  clock_count_at_startup : ℕ
  holdover_since : ℚ
  holdover_since_t : ℕ
deriving DecidableEq

/-- The value `chrono::steady_clock::time_point::min()` used by Dexter.cpp as
the "not in holdover" sentinel, in seconds (the `steady_clock` tick count is a
signed 64-bit number of nanoseconds). -/
def steady_clock_time_point_min : ℚ := -((2 : ℚ) ^ 63) / 1000000000

/-- One observation of the environment during `Dexter::handle_hw_time`:
the IIO attribute reads and the host clocks.  Attribute reads are assumed
to succeed (a failed read throws and takes none of the branches below). -/
structure HwEnv where
  gpsdo_locked : ℤ
  pps_loss_of_signal : ℤ
  pps_clks : ℕ
  pps_clks2 : ℕ
  utc_now_sec : ℕ
  system_now_t : ℕ
  steady_now : ℚ
deriving DecidableEq

/-- `Dexter::handle_hw_time` (Dexter.cpp lines 199-325).  `none` models the
`throw` when the two `pps_clks` readings do not differ by exactly
`DSP_CLOCK`.  In the `Startup` case the two sleeps-until-second-change and
the two `pps_clks` reads are represented by `env.pps_clks` / `env.pps_clks2`
and the UTC second `env.utc_now_sec` observed at the second read. -/
def handle_hw_time (conf : SDRDeviceConfig) (st : DexterClock) (env : HwEnv) :
    Option DexterClock :=
  match st.clock_state with
  | .Startup =>
      if env.gpsdo_locked = 1 ∧ env.pps_loss_of_signal = 0 then
        if (env.pps_clks % U64 + DSP_CLOCK) % U64 ≠ env.pps_clks2 % U64 then
          none
        else
          some ⟨.Normal, env.utc_now_sec, env.pps_clks2 % U64,
                steady_clock_time_point_min, 0⟩
      else
        some st
  | .Normal =>
      if env.pps_loss_of_signal = 1 then
        some { st with
                clock_state := .Holdover,
                holdover_since := env.steady_now,
                holdover_since_t := env.system_now_t }
      else
        some st
  | .Holdover =>
      let d := env.steady_now - st.holdover_since
      if d > (conf.maxGPSHoldoverTime : ℚ) ∨ env.pps_loss_of_signal = 0 then
        some ⟨.Startup, 0, 0, steady_clock_time_point_min, 0⟩
      else
        some st

/-- `Dexter::is_clk_source_ok` (Dexter.cpp lines 621-630): when
`enableSync`, run `handle_hw_time` once and return
`m_clock_state != DexterClockState::Startup`; otherwise return `true`
without touching the state machine.  `none` = the exception from
`handle_hw_time` propagates. -/
def is_clk_source_ok (conf : SDRDeviceConfig) (st : DexterClock) (env : HwEnv) :
    Option (DexterClock × Bool) :=
  if conf.enableSync then
    (handle_hw_time conf st env).map
      (fun s => (s, decide (s.clock_state ≠ DexterClockState.Startup)))
  else
    some (st, true)

/-! ## Dexter frame hand-off (Dexter::transmit_frame) -/

/-- The mutable `Dexter` state touched by `transmit_frame`, together with the
`stream0_start_clks` hardware register (last value written to it). -/
structure DexterTxState where
  clock : DexterClock
  channel_is_up : Bool
  require_timestamp_refresh : Bool
  num_late : ℕ
  num_frames_modulated : ℕ
  num_buffers_pushed : ℕ
  stream0_start_clks : ℕ
deriving DecidableEq

/-- Environment of one `Dexter::transmit_frame` call: the `clks` attribute
read, the host wall clock (for `offset_to_system_time`), whether the
`stream0_start_clks` attribute write succeeds, and the two
`iio_buffer_push` results. -/
structure TxEnv where
  clks : ℕ
  system_now : ℚ
  write_start_clks_ok : Bool
  push0 : ℤ
  push1 : ℤ
deriving DecidableEq

/-- Which exit `Dexter::transmit_frame` takes:
* `invalidBufferSize` — the `throw` on a wrong buffer length;
* `notReady` — silent return in `Startup` with timestamped tx required;
* `skippedLateMargin` — "Skip frame short margin", `num_late++`;
* `skippedStartClksWriteFailed` — failed `stream0_start_clks` write, `num_late++`;
* `completed` — the function ran to its end. -/
inductive TFOutcome
  | invalidBufferSize
  | notReady
  | skippedLateMargin
  | skippedStartClksWriteFailed
  | completed
deriving DecidableEq

/-- `Dexter::channel_up` (gain write only; the gain attribute is not part of
the modelled state). -/
def channel_up (st : DexterTxState) : DexterTxState :=
  { st with channel_is_up := true }

/-- `Dexter::channel_down`: gain to 0 and `stream0_start_clks = 0`. -/
def channel_down (st : DexterTxState) : DexterTxState :=
  { st with channel_is_up := false, stream0_start_clks := 0 }

/-- The `frame_start_clocks` computation of `Dexter::transmit_frame`
(lines 669-673): `((int64_t)sec - (int64_t)utc) * DSP_CLOCK +
clock_count_at_startup + pps * TIMESTAMP_PPS_PER_DSP_CLOCKS` in `uint64_t`
arithmetic, i.e. reduced modulo `2^64`. -/
def frame_start_clocks (st : DexterTxState) (ts : FrameTimestamp) : ℕ :=
  ((((ts.timestamp_sec : ℤ) - (st.clock.utc_seconds_at_startup : ℤ)) * (DSP_CLOCK : ℤ)
      + (st.clock.clock_count_at_startup : ℤ)
      + (ts.timestamp_pps : ℤ) * (TIMESTAMP_PPS_PER_DSP_CLOCKS : ℤ)) % (U64 : ℤ)).toNat

/-- Intermediate result of the channel-arming prefix of `transmit_frame`:
either an early `return` with an outcome, or fall-through with the state. -/
inductive ArmStep
  | exit (o : TFOutcome) (st : DexterTxState)
  | cont (st : DexterTxState)
deriving DecidableEq

/-- The `if (not m_channel_is_up) { ... } channel_up()` prefix of
`Dexter::transmit_frame` (lines 661-709). -/
def arm_phase (conf : SDRDeviceConfig) (st : DexterTxState) (env : TxEnv)
    (frame : FrameData) : ArmStep :=
  let require_timestamped_tx := conf.enableSync && frame.ts.timestamp_valid
  if !st.channel_is_up then
    if require_timestamped_tx then
      if st.clock.clock_state = DexterClockState.Startup then
        .exit .notReady st
      else
        let fsc := frame_start_clocks st frame.ts
        let margin_s := frame.ts.offset_to_system_time env.system_now
        if margin_s < 1 / 5 then
          .exit .skippedLateMargin { st with num_late := st.num_late + 1 }
        else if !env.write_start_clks_ok then
          .exit .skippedStartClksWriteFailed { st with num_late := st.num_late + 1 }
        else
          .cont (channel_up { st with
                  stream0_start_clks := fsc,
                  require_timestamp_refresh := false })
    else
      .cont (channel_up st)
  else
    .cont st

/-- The `if (m_require_timestamp_refresh) { channel_down(); ... }` step of
`Dexter::transmit_frame` (lines 711-715). -/
def refresh_phase (st : DexterTxState) : DexterTxState :=
  if st.require_timestamp_refresh then
    { channel_down st with require_timestamp_refresh := false }
  else
    st

/-- The `if (m_channel_is_up) { for i < IIO_BUFFERS ... push ... }
num_frames_modulated++` step of `Dexter::transmit_frame` (lines 721-738):
a negative push result zeroes `num_buffers_pushed`, brings the channel
down and breaks out of the loop; `num_frames_modulated` is incremented
after the loop in every case. -/
def push_phase (st : DexterTxState) (p0 p1 : ℤ) : DexterTxState :=
  if st.channel_is_up then
    let st1 :=
      if p0 < 0 then
        channel_down { st with num_buffers_pushed := 0 }
      else
        let sta := { st with num_buffers_pushed := st.num_buffers_pushed + 1 }
        if p1 < 0 then
          channel_down { sta with num_buffers_pushed := 0 }
        else
          { sta with num_buffers_pushed := sta.num_buffers_pushed + 1 }
    { st1 with num_frames_modulated := st1.num_frames_modulated + 1 }
  else
    st

/-- `Dexter::transmit_frame` (Dexter.cpp lines 650-751): buffer-length
check, channel arming, pending-refresh handling, then the push loop.
(The trailing underflow-counter logging does not change this state.) -/
def transmit_frame (conf : SDRDeviceConfig) (st : DexterTxState) (env : TxEnv)
    (frame : FrameData) : TFOutcome × DexterTxState :=
  if frame.bufLen ≠ TRANSMISSION_FRAME_LEN_SAMPS * 2 then
    (.invalidBufferSize, st)
  else
    match arm_phase conf st env frame with
    | .exit o s => (o, s)
    | .cont s1 => (.completed, push_phase (refresh_phase s1) env.push0 env.push1)

/-! ## Dexter health statistics (Dexter::get_run_statistics, alarm part) -/

/-- The sysfs/iio sensor readings consumed by `Dexter::get_run_statistics`:
`none` models an unreadable sensor file.  The voltage values are the raw
numbers parsed from `inN_input` (the code applies the divider correction
only to the *reported* value, not to the value used in the alarm
comparisons). -/
structure HealthReadings where
  in2_vcc3v3 : Option ℚ
  in1_vcc5v4 : Option ℚ
  in3_vfan : Option ℚ
  in0_vcc_main_in : Option ℚ
  in4_vcc3v3pll : Option ℚ
  in5_vcc2v5io : Option ℚ
  in6_vccocxo : Option ℚ
  tempfpga : Option ℚ
deriving DecidableEq

/-- `VMINFACT = 0.85` from Dexter.cpp. -/
def VMINFACT : ℚ := 85 / 100

/-- `VMAXFACT = 1.15` from Dexter.cpp. -/
def VMAXFACT : ℚ := 115 / 100

/-- The `voltage_ok` flag as computed by `Dexter::get_run_statistics`
(Dexter.cpp lines 446-537), block by block and in source order.  Note the
source *assigns* (`=`) a fresh value in the in2/in1/in4/in5 blocks instead
of accumulating, uses `|=` in the in0 (`vcc_main_in`) block, and leaves
the flag untouched in the readable in3/in6 blocks, so each later
assignment discards the earlier checks (`ok1`, `ok4`, `ok5` below are
dead values exactly as in the source). -/
def voltage_ok_code (h : HealthReadings) : Bool :=
  let ok0 := true
  let ok1 :=
    match h.in2_vcc3v3 with
    | some v => decide (v > VMINFACT * (33 / 10)) && decide (v < VMAXFACT * (33 / 10))
    | none => false
  let ok2 :=
    match h.in1_vcc5v4 with
    | some v => decide (v > VMINFACT * (27 / 5)) && decide (v < VMAXFACT * (27 / 5))
    | none => false
  let ok3 :=
    match h.in3_vfan with
    | some _ => ok2
    | none => false
  let ok4 :=
    match h.in0_vcc_main_in with
    | some v => ok3 || decide (v > 10)
    | none => false
  let ok5 :=
    match h.in4_vcc3v3pll with
    | some v => decide (v > VMINFACT * (33 / 10)) && decide (v < VMAXFACT * (33 / 10))
    | none => false
  let ok6 :=
    match h.in5_vcc2v5io with
    | some v => decide (v > VMINFACT * (5 / 2)) && decide (v < VMAXFACT * (5 / 2))
    | none => false
  let ok7 :=
    match h.in6_vccocxo with
    | some _ => ok6
    | none => false
  let _ := ok0
  let _ := ok1
  let _ := ok4
  let _ := ok5
  ok7

/-- The `temp_ok` flag as computed by `Dexter::get_run_statistics`
(Dexter.cpp lines 447, 564-571): `temp_ok` starts `true` and the readable
case performs `temp_ok |= *tfpga <= 85`. -/
def temp_ok_code (h : HealthReadings) : Bool :=
  let t0 := true
  match h.tempfpga with
  | some t => t0 || decide (t ≤ 85)
  | none => false

/-- `rs["voltage_alarm"] = not voltage_ok` (Dexter.cpp line 573). -/
def voltage_alarm_code (h : HealthReadings) : Bool := !voltage_ok_code h

/-- `rs["temp_alarm"] = not temp_ok` (Dexter.cpp line 574). -/
def temp_alarm_code (h : HealthReadings) : Bool := !temp_ok_code h

/-- The `voltage_alarm` value the claim describes (after the documented
divider corrections, every rail within `[0.85, 1.15]` of nominal,
`vcc_main_in` above 10 V, all sensors readable): stated from the claim,
for comparison with `voltage_alarm_code`. -/
def voltage_alarm_claim (h : HealthReadings) : Bool :=
  let band (v nominal : ℚ) : Bool :=
    decide (VMINFACT * nominal ≤ v) && decide (v ≤ VMAXFACT * nominal)
  let rail (r : Option ℚ) (divider nominal : ℚ) : Bool :=
    match r with
    | some v => band (v * divider / 1000) nominal
    | none => false
  let ok :=
    rail h.in2_vcc3v3 ((18 + 36) / 36) (33 / 10) &&
    rail h.in1_vcc5v4 ((51 + 36) / 36) (27 / 5) &&
    (h.in3_vfan.isSome) &&
    (match h.in0_vcc_main_in with
     | some v => decide (v * ((560 + 22) / 22) / 1000 > 10)
     | none => false) &&
    rail h.in4_vcc3v3pll ((18 + 36) / 36) (33 / 10) &&
    rail h.in5_vcc2v5io ((47 / 10 + 36) / 36) (5 / 2) &&
    (h.in6_vccocxo.isSome)
  !ok

/-- The `temp_alarm` value the claim describes: true iff the FPGA
temperature exceeds 85 °C or cannot be read. -/
def temp_alarm_claim (h : HealthReadings) : Bool :=
  match h.tempfpga with
  | some t => decide (t > 85)
  | none => true

/-- Helper: with a valid timestamp the synchronous block never takes the
incomplete-timestamp drop. -/
theorem handle_frame_sync_not_incomplete (cfg : SDRDeviceConfig) (st : SDRLastTx)
    (device_time : ℚ) (frame : FrameData) (hv : frame.ts.timestamp_valid = true) :
    (handle_frame_sync cfg st device_time frame).outcome ≠
      HFOutcome.droppedIncompleteTs := by
  simp only [handle_frame_sync, hv, Bool.not_true]
  split_ifs <;> simp_all

/-- Helper: with muting disabled the synchronous block never takes the
muted drop. -/
theorem handle_frame_sync_not_muted (cfg : SDRDeviceConfig) (st : SDRLastTx)
    (device_time : ℚ) (frame : FrameData) (hm : cfg.muting = false) :
    (handle_frame_sync cfg st device_time frame).outcome ≠
      HFOutcome.droppedMuted := by
  simp only [handle_frame_sync, hm]
  split_ifs <;> simp_all

/-! ## Theorems for the claims -/

/-- Claim C3: for every tick of `Dexter::handle_hw_time` taken in state
`Holdover`, if the elapsed time since entering holdover exceeds
`maxGPSHoldoverTime` or `pps_loss_of_signal` reads 0, the next state is
`Startup` (never `Normal`) with `utc_seconds_at_startup`,
`clock_count_at_startup` and the holdover markers all reset to their
cleared values (zero, resp. the `time_point::min()` sentinel); otherwise
the state is unchanged. -/
theorem C3_holdover_exit (conf : SDRDeviceConfig) (st : DexterClock) (env : HwEnv)
    (hst : st.clock_state = DexterClockState.Holdover) :
    (env.steady_now - st.holdover_since > (conf.maxGPSHoldoverTime : ℚ) ∨
        env.pps_loss_of_signal = 0 →
      handle_hw_time conf st env =
        some ⟨DexterClockState.Startup, 0, 0, steady_clock_time_point_min, 0⟩) ∧
    (¬ env.steady_now - st.holdover_since > (conf.maxGPSHoldoverTime : ℚ) →
      env.pps_loss_of_signal ≠ 0 →
      handle_hw_time conf st env = some st) := by
  constructor
  · intro h
    simp only [handle_hw_time, hst]
    rw [if_pos h]
  · intro h1 h2
    simp only [handle_hw_time, hst]
    rw [if_neg (by tauto)]

/-- Witness for `C3_holdover_exit` at a concrete holdover state 31 s old
with a 30 s holdover budget. -/
theorem C3_holdover_exit_witness :
    handle_hw_time ⟨true, false, false, 2048000, 30⟩
        ⟨DexterClockState.Holdover, 7, 9, 0, 5⟩
        ⟨1, 1, 0, 0, 0, 0, 31⟩ =
      some ⟨DexterClockState.Startup, 0, 0, steady_clock_time_point_min, 0⟩ :=
  (C3_holdover_exit ⟨true, false, false, 2048000, 30⟩
      ⟨DexterClockState.Holdover, 7, 9, 0, 5⟩
      ⟨1, 1, 0, 0, 0, 0, 31⟩ rfl).1 (Or.inl (by norm_num))

/-- Claim C4: `Dexter::is_clk_source_ok` with `enableSync` advances the
clock state machine exactly one `handle_hw_time` tick and returns true iff
the resulting state is not `Startup`; with `enableSync` false it returns
true and leaves the state machine untouched. -/
theorem C4_is_clk_source_ok (conf : SDRDeviceConfig) (st : DexterClock) (env : HwEnv) :
    (conf.enableSync = true →
      ∀ s b, is_clk_source_ok conf st env = some (s, b) →
        handle_hw_time conf st env = some s ∧
        (b = true ↔ s.clock_state ≠ DexterClockState.Startup)) ∧
    (conf.enableSync = false → is_clk_source_ok conf st env = some (st, true)) := by
  constructor
  · intro hs s b hr
    simp only [is_clk_source_ok, hs, if_true] at hr
    cases hmm : handle_hw_time conf st env with
    | none => rw [hmm] at hr; simp at hr
    | some s' =>
        rw [hmm] at hr
        simp only [Option.map_some', Option.some_inj, Prod.mk.injEq] at hr
        obtain ⟨h1, h2⟩ := hr
        refine ⟨by rw [h1], ?_⟩
        rw [← h2, ← h1]
        exact decide_eq_true_iff
  · intro hs
    simp [is_clk_source_ok, hs]

/-- Witness for `C4_is_clk_source_ok`: one synchronous tick from `Normal`
with the PPS present stays in `Normal` and reports a healthy clock. -/
theorem C4_is_clk_source_ok_witness :
    handle_hw_time ⟨true, false, false, 2048000, 30⟩
        ⟨DexterClockState.Normal, 7, 9, 0, 0⟩ ⟨1, 0, 0, 0, 0, 0, 0⟩ =
      some ⟨DexterClockState.Normal, 7, 9, 0, 0⟩ ∧
    (true = true ↔
      DexterClock.clock_state ⟨DexterClockState.Normal, 7, 9, 0, 0⟩ ≠
        DexterClockState.Startup) := by
  refine (C4_is_clk_source_ok ⟨true, false, false, 2048000, 30⟩
      ⟨DexterClockState.Normal, 7, 9, 0, 0⟩ ⟨1, 0, 0, 0, 0, 0, 0⟩).1 rfl
    ⟨DexterClockState.Normal, 7, 9, 0, 0⟩ true ?_
  simp [is_clk_source_ok, handle_hw_time]

/-- Claim C8: the inner `not frame.ts.timestamp_valid` guard of
`SDR::handle_frame` is unreachable — no input frame ever takes that drop
branch. -/
theorem C8_inner_guard_dead (cfg : SDRDeviceConfig) (st : SDRLastTx)
    (clk_source_ok : Bool) (device_time : ℚ) (frame : FrameData) :
    (handle_frame cfg st clk_source_ok device_time frame).outcome ≠
      HFOutcome.droppedIncompleteTs := by
  simp only [handle_frame]
  split_ifs with h1 h2 h3 h4
  · simp
  · simp
  · exact handle_frame_sync_not_incomplete cfg st device_time frame
      ((Bool.and_eq_true _ _).mp h3).2
  · simp
  · simp

/-- Claim C9: the `SDR` constructor unconditionally clears
`m_config.muting`, so whatever the initial configuration, the output
starts unmuted and `handle_frame` never drops a frame through the muting
gate as long as muting has not been switched on remotely. -/
theorem C9_starts_unmuted (config : SDRDeviceConfig) :
    (SDR_constructor_config config).muting = false ∧
    ∀ (st : SDRLastTx) (clk_source_ok : Bool) (device_time : ℚ) (frame : FrameData),
      (handle_frame (SDR_constructor_config config) st clk_source_ok device_time
          frame).outcome ≠ HFOutcome.droppedMuted := by
  refine ⟨rfl, fun st clk_source_ok device_time frame => ?_⟩
  simp only [handle_frame]
  split_ifs with h1 h2 h3 h4
  · simp
  · simp
  · exact handle_frame_sync_not_muted _ st device_time frame rfl
  · exact absurd h4 (by simp [SDR_constructor_config])
  · simp

/-- Claim C1: a `Dexter::transmit_frame` call with the channel down and
`require_ts_tx = enableSync AND timestamp_valid` returns silently (no
state change) while the clock state is `Startup`; otherwise it computes
`frame_start_clocks = (timestamp_sec - utc_seconds_at_startup)*DSP_CLOCK +
clock_count_at_startup + timestamp_pps*(DSP_CLOCK/16384000)` with
`DSP_CLOCK = 163840000` (in `uint64_t` arithmetic), and then: if
`offset_to_system_time() < 0.2` s it increments `num_late` and drops the
frame with the channel still down, else it writes `stream0_start_clks =
frame_start_clocks` and brings the channel up (here under a successful
register write and successful buffer pushes). -/
theorem C1_transmit_frame_arming (conf : SDRDeviceConfig) (st : DexterTxState)
    (env : TxEnv) (frame : FrameData)
    (hbuf : frame.bufLen = TRANSMISSION_FRAME_LEN_SAMPS * 2)
    (hdown : st.channel_is_up = false)
    (hsync : conf.enableSync = true) (hvalid : frame.ts.timestamp_valid = true)
    (hw : env.write_start_clks_ok = true)
    (hp0 : 0 ≤ env.push0) (hp1 : 0 ≤ env.push1) :
    (st.clock.clock_state = DexterClockState.Startup →
      transmit_frame conf st env frame = (TFOutcome.notReady, st)) ∧
    (st.clock.clock_state ≠ DexterClockState.Startup →
      (frame.ts.offset_to_system_time env.system_now < 1 / 5 →
        transmit_frame conf st env frame =
          (TFOutcome.skippedLateMargin, { st with num_late := st.num_late + 1 })) ∧
      (¬ frame.ts.offset_to_system_time env.system_now < 1 / 5 →
        (transmit_frame conf st env frame).1 = TFOutcome.completed ∧
        (transmit_frame conf st env frame).2.stream0_start_clks =
          frame_start_clocks st frame.ts ∧
        (transmit_frame conf st env frame).2.channel_is_up = true ∧
        (transmit_frame conf st env frame).2.num_late = st.num_late)) ∧
    frame_start_clocks st frame.ts =
      ((((frame.ts.timestamp_sec : ℤ) - (st.clock.utc_seconds_at_startup : ℤ))
            * 163840000
          + (st.clock.clock_count_at_startup : ℤ)
          + (frame.ts.timestamp_pps : ℤ) * 10) % 2 ^ 64).toNat := by
  have hbufc : ¬ frame.bufLen ≠ TRANSMISSION_FRAME_LEN_SAMPS * 2 := by
    simp [hbuf]
  have hfsc : frame_start_clocks st frame.ts =
      ((((frame.ts.timestamp_sec : ℤ) - (st.clock.utc_seconds_at_startup : ℤ))
            * 163840000
          + (st.clock.clock_count_at_startup : ℤ)
          + (frame.ts.timestamp_pps : ℤ) * 10) % 2 ^ 64).toNat := by
    norm_num [frame_start_clocks, DSP_CLOCK, TIMESTAMP_PPS_PER_DSP_CLOCKS, U64]
  refine ⟨fun hstart => ?_, fun hstart => ⟨fun hlate => ?_, fun hok => ?_⟩, hfsc⟩
  · simp only [transmit_frame, hbufc, if_false, arm_phase, hdown, hsync, hvalid,
      Bool.not_false, Bool.and_self, if_true, hstart]
  · simp only [transmit_frame, hbufc, if_false, arm_phase, hdown, hsync, hvalid,
      Bool.not_false, Bool.and_self, if_true]
    rw [if_neg hstart, if_pos hlate]
  · have hres : transmit_frame conf st env frame =
        (TFOutcome.completed,
          push_phase (refresh_phase (channel_up { st with
            stream0_start_clks := frame_start_clocks st frame.ts,
            require_timestamp_refresh := false })) env.push0 env.push1) := by
      simp only [transmit_frame, hbufc, if_false, arm_phase, hdown, hsync, hvalid,
        Bool.not_false, Bool.and_self, if_true]
      rw [if_neg hstart, if_neg hok, if_neg (by simp [hw])]
    have hrefresh : refresh_phase (channel_up { st with
          stream0_start_clks := frame_start_clocks st frame.ts,
          require_timestamp_refresh := false })
        = channel_up { st with
            stream0_start_clks := frame_start_clocks st frame.ts,
            require_timestamp_refresh := false } := by
      simp [refresh_phase, channel_up]
    have hpush : ∀ s : DexterTxState, s.channel_is_up = true →
        (push_phase s env.push0 env.push1).stream0_start_clks = s.stream0_start_clks ∧
        (push_phase s env.push0 env.push1).channel_is_up = true ∧
        (push_phase s env.push0 env.push1).num_late = s.num_late := by
      intro s hs
      simp [push_phase, hs, not_lt.mpr hp0, not_lt.mpr hp1]
    rw [hres, hrefresh]
    obtain ⟨hA, hB, hC⟩ := hpush (channel_up { st with
      stream0_start_clks := frame_start_clocks st frame.ts,
      require_timestamp_refresh := false }) rfl
    exact ⟨rfl, by rw [hA]; rfl, by rw [hB], by rw [hC]; rfl⟩

/-- Witness for `C1_transmit_frame_arming`: from `Normal` with
`utc_seconds_at_startup = 1000`, `clock_count_at_startup = 163840`, a
frame timestamped `(1001, 0)` at host time 1000 s arms
`stream0_start_clks = 164003840` and raises the channel. -/
theorem C1_transmit_frame_arming_witness :
    (transmit_frame ⟨true, false, false, 2048000, 30⟩
        ⟨⟨DexterClockState.Normal, 1000, 163840, 0, 0⟩, false, false, 0, 0, 0, 0⟩
        ⟨0, 1000, true, 0, 0⟩ ⟨786432, 4, ⟨0, true, 1001, 0, false⟩⟩).1 =
      TFOutcome.completed ∧
    (transmit_frame ⟨true, false, false, 2048000, 30⟩
        ⟨⟨DexterClockState.Normal, 1000, 163840, 0, 0⟩, false, false, 0, 0, 0, 0⟩
        ⟨0, 1000, true, 0, 0⟩ ⟨786432, 4, ⟨0, true, 1001, 0, false⟩⟩).2.stream0_start_clks =
      frame_start_clocks
        ⟨⟨DexterClockState.Normal, 1000, 163840, 0, 0⟩, false, false, 0, 0, 0, 0⟩
        ⟨0, true, 1001, 0, false⟩ ∧
    (transmit_frame ⟨true, false, false, 2048000, 30⟩
        ⟨⟨DexterClockState.Normal, 1000, 163840, 0, 0⟩, false, false, 0, 0, 0, 0⟩
        ⟨0, 1000, true, 0, 0⟩ ⟨786432, 4, ⟨0, true, 1001, 0, false⟩⟩).2.channel_is_up =
      true := by
  have h := C1_transmit_frame_arming ⟨true, false, false, 2048000, 30⟩
      ⟨⟨DexterClockState.Normal, 1000, 163840, 0, 0⟩, false, false, 0, 0, 0, 0⟩
      ⟨0, 1000, true, 0, 0⟩ ⟨786432, 4, ⟨0, true, 1001, 0, false⟩⟩
      (by norm_num [TRANSMISSION_FRAME_LEN_SAMPS]) rfl rfl rfl rfl (le_refl 0) (le_refl 0)
  have h2 := (h.2.1 (by simp)).2 (by
    norm_num [FrameTimestamp.offset_to_system_time, FrameTimestamp.get_real_secs])
  exact ⟨h2.1, h2.2.1, h2.2.2.1⟩

/-- Claim C7 evaluation at the failing input: with every sensor readable,
`vcc3v3` reading 0 (far outside `[0.85, 1.15] × 3.3`), `vcc_main_in`
reading 1 (not above 10), `vcc2v5io` reading 2.5 (in band) and the FPGA
temperature at 100 °C, the code reports **no** voltage alarm and **no**
temperature alarm, while the claimed (and spec-intended) alarms are both
raised: the `voltage_ok` blocks overwrite one another with `=`, and
`temp_ok |= t <= 85` starts from `true` so a readable sensor can never
raise `temp_alarm`. -/
theorem C7_alarm_code_bug :
    voltage_alarm_code ⟨some 0, some 1, some 1, some 1, some 1, some (5 / 2),
        some 1, some 100⟩ = false ∧
    temp_alarm_code ⟨some 0, some 1, some 1, some 1, some 1, some (5 / 2),
        some 1, some 100⟩ = false ∧
    voltage_alarm_claim ⟨some 0, some 1, some 1, some 1, some 1, some (5 / 2),
        some 1, some 100⟩ = true ∧
    temp_alarm_claim ⟨some 0, some 1, some 1, some 1, some 1, some (5 / 2),
        some 1, some 100⟩ = true := by
  refine ⟨?_, ?_, ?_, ?_⟩
  · norm_num [voltage_alarm_code, voltage_ok_code, VMINFACT, VMAXFACT]
  · norm_num [temp_alarm_code, temp_ok_code]
  · norm_num [voltage_alarm_claim, VMINFACT, VMAXFACT]
  · norm_num [temp_alarm_claim]

/-- Claim C2 counterexample: a frame that reaches `SDR::handle_frame` with
`enableSync`, a valid timestamp and `ts.real_secs` strictly below the
device time is dropped *silently* (no warning, no refresh request) when
the `is_clk_source_ok` gate fails, so the claim as stated — which promises
a warning and a refresh request for every such frame — is false. -/
theorem C2_claim_counterexample :
    (⟨0, true, 5, 0, false⟩ : FrameTimestamp).get_real_secs < 10 ∧
    handle_frame ⟨true, false, false, 2048000, 30⟩ ⟨false, 0, 0⟩ false 10
        ⟨786432, 4, ⟨0, true, 5, 0, false⟩⟩ =
      ⟨HFOutcome.droppedClkNotOk, 0, false, ⟨false, 0, 0⟩⟩ := by
  constructor
  · norm_num [FrameTimestamp.get_real_secs]
  · rfl

/-- Claim C2 (amended with the clock-source gate): for every frame reaching
`SDR::handle_frame` with `enableSync`, a valid timestamp and a passing
`is_clk_source_ok` check — if `ts.real_secs < device_time` the frame is
dropped through the warn-and-refresh past-timestamp exit; if
`ts.real_secs > device_time + 100` the call throws (killing the worker);
otherwise, if not muted, the frame is handed to `device.transmit_frame`. -/
theorem C2_sync_timestamp_checks (cfg : SDRDeviceConfig) (st : SDRLastTx)
    (device_time : ℚ) (frame : FrameData)
    (hsync : cfg.enableSync = true) (hvalid : frame.ts.timestamp_valid = true) :
    (frame.ts.get_real_secs < device_time →
      (handle_frame cfg st true device_time frame).outcome = HFOutcome.droppedPast ∧
      1 ≤ (handle_frame cfg st true device_time frame).refreshRequests) ∧
    (frame.ts.get_real_secs > device_time + 100 →
      (handle_frame cfg st true device_time frame).outcome = HFOutcome.fatalFuture) ∧
    (¬ frame.ts.get_real_secs < device_time →
      ¬ frame.ts.get_real_secs > device_time + 100 →
      cfg.muting = false →
      (handle_frame cfg st true device_time frame).outcome = HFOutcome.transmitted) := by
  have habort : device_time + TIMESTAMP_ABORT_FUTURE = device_time + 100 := rfl
  have hred : handle_frame cfg st true device_time frame
      = handle_frame_sync cfg st device_time frame := by
    simp [handle_frame, hsync, hvalid]
  rw [hred]
  simp only [handle_frame_sync, hvalid, Bool.not_true, Bool.false_eq_true,
    if_false, habort]
  refine ⟨fun hlt => ?_, fun hgt => ?_, fun h1 h2 h3 => ?_⟩
  · rw [if_pos hlt]
    exact ⟨rfl, Nat.le_add_left 1 _⟩
  · rw [if_neg (by linarith), if_pos hgt]
  · rw [if_neg h1, if_neg h2, if_neg (by simp [h3])]

/-- Witness for `C2_sync_timestamp_checks`: a frame timestamped at 5 s
against a device clock at 10 s takes the past-timestamp exit with a
refresh request. -/
theorem C2_sync_timestamp_checks_witness :
    (handle_frame ⟨true, false, false, 2048000, 30⟩ ⟨false, 0, 0⟩ true 10
        ⟨786432, 4, ⟨0, true, 5, 0, false⟩⟩).outcome = HFOutcome.droppedPast ∧
    1 ≤ (handle_frame ⟨true, false, false, 2048000, 30⟩ ⟨false, 0, 0⟩ true 10
        ⟨786432, 4, ⟨0, true, 5, 0, false⟩⟩).refreshRequests :=
  (C2_sync_timestamp_checks ⟨true, false, false, 2048000, 30⟩ ⟨false, 0, 0⟩ 10
      ⟨786432, 4, ⟨0, true, 5, 0, false⟩⟩ rfl rfl).1
    (by norm_num [FrameTimestamp.get_real_secs])

/-- Helper: the carry loop normalises the pps component modulo 16384000 and
moves the carry into the seconds (mod `2^32`). -/
theorem pps_carry_closed : ∀ pps sec : ℕ, sec < U32 →
    pps_carry sec pps = ((sec + pps / 16384000) % U32, pps % 16384000) := by
  intro pps
  induction pps using Nat.strong_induction_on with
  | _ p ih =>
    intro sec hs
    by_cases hc : 16384000 ≤ p
    · rw [pps_carry_eq, if_pos hc]
      rw [ih (p - 16384000) (by omega) ((sec + 1) % U32)
        (Nat.mod_lt _ (by norm_num [U32]))]
      have hU : U32 = 4294967296 := by norm_num [U32]
      rw [Prod.mk.injEq]
      constructor
      · rw [Nat.mod_add_mod]
        congr 1
        omega
      · omega
    · rw [pps_carry_eq, if_neg hc]
      have h1 : p / 16384000 = 0 := by omega
      have h2 : p % 16384000 = p := by omega
      rw [h1, h2, Nat.add_zero, Nat.mod_eq_of_lt hs]

/-- Claim C5 counterexample: a frame whose `(sec, pps)` mismatches the
expected continuation is warned about and triggers a refresh request, but
it is *not* transmitted when it also fails a later check (here: its
timestamp lies in the past), so the claim's unconditional "the frame is
still transmitted" is false. -/
theorem C5_claim_counterexample :
    (handle_frame ⟨true, false, false, 2048000, 30⟩ ⟨true, 0, 0⟩ true 10
        ⟨8, 4, ⟨0, true, 5, 0, false⟩⟩).warnedIrregularity = true ∧
    1 ≤ (handle_frame ⟨true, false, false, 2048000, 30⟩ ⟨true, 0, 0⟩ true 10
        ⟨8, 4, ⟨0, true, 5, 0, false⟩⟩).refreshRequests ∧
    (handle_frame ⟨true, false, false, 2048000, 30⟩ ⟨true, 0, 0⟩ true 10
        ⟨8, 4, ⟨0, true, 5, 0, false⟩⟩).outcome ≠ HFOutcome.transmitted := by
  have heq : handle_frame ⟨true, false, false, 2048000, 30⟩ ⟨true, 0, 0⟩ true 10
      ⟨8, 4, ⟨0, true, 5, 0, false⟩⟩ =
      ⟨HFOutcome.droppedPast, 2, true, ⟨true, 5, 0⟩⟩ := by
    have h1 : FrameTimestamp.get_real_secs ⟨0, true, 5, 0, false⟩ < 10 := by
      norm_num [FrameTimestamp.get_real_secs]
    simp only [handle_frame, handle_frame_sync]
    simp [h1]
    decide
  rw [heq]
  refine ⟨rfl, by norm_num, by simp⟩

/-- Claim C5 (amended): with the clock gate passing, `enableSync`, a valid
timestamp and the previous timestamps initialised, if the frame's
`(sec, pps)` differs from the expected pair — computed from the previous
pair with `increment = sizeIn * 16384000 / sampleRate` ticks and the pps
component carried into seconds modulo 16384000 — the irregularity warning
is emitted AND a timestamp refresh is requested, and the frame is still
transmitted provided it also passes the subsequent past/future/muting
checks. -/
theorem C5_timestamp_irregularity (cfg : SDRDeviceConfig) (st : SDRLastTx)
    (device_time : ℚ) (frame : FrameData)
    (hsync : cfg.enableSync = true) (hvalid : frame.ts.timestamp_valid = true)
    (hinit : st.initialised = true)
    (hsz : frame.bufLen / frame.sampleSize * 16384000 < U64)
    (hmm : expected_tx_time st cfg.sampleRate frame.bufLen frame.sampleSize ≠
      (frame.ts.timestamp_sec, frame.ts.timestamp_pps)) :
    expected_tx_time st cfg.sampleRate frame.bufLen frame.sampleSize =
      (((st.last_tx_second +
            frame.bufLen / frame.sampleSize * 16384000 / cfg.sampleRate / 16384000) % U32 +
          (st.last_tx_pps +
            frame.bufLen / frame.sampleSize * 16384000 / cfg.sampleRate % 16384000) % U32
            / 16384000) % U32,
        (st.last_tx_pps +
          frame.bufLen / frame.sampleSize * 16384000 / cfg.sampleRate % 16384000) % U32
          % 16384000) ∧
    (handle_frame cfg st true device_time frame).warnedIrregularity = true ∧
    1 ≤ (handle_frame cfg st true device_time frame).refreshRequests ∧
    (¬ frame.ts.get_real_secs < device_time →
      ¬ frame.ts.get_real_secs > device_time + 100 →
      cfg.muting = false →
      (handle_frame cfg st true device_time frame).outcome = HFOutcome.transmitted) := by
  have hexp : expected_tx_time st cfg.sampleRate frame.bufLen frame.sampleSize =
      (((st.last_tx_second +
            frame.bufLen / frame.sampleSize * 16384000 / cfg.sampleRate / 16384000) % U32 +
          (st.last_tx_pps +
            frame.bufLen / frame.sampleSize * 16384000 / cfg.sampleRate % 16384000) % U32
            / 16384000) % U32,
        (st.last_tx_pps +
          frame.bufLen / frame.sampleSize * 16384000 / cfg.sampleRate % 16384000) % U32
          % 16384000) := by
    have hs1 : frame.bufLen / frame.sampleSize % U64 = frame.bufLen / frame.sampleSize := by
      apply Nat.mod_eq_of_lt
      have : frame.bufLen / frame.sampleSize ≤ frame.bufLen / frame.sampleSize * 16384000 := by
        nlinarith [Nat.zero_le (frame.bufLen / frame.sampleSize)]
      omega
    have hs2 : frame.bufLen / frame.sampleSize * 16384000 % U64
        = frame.bufLen / frame.sampleSize * 16384000 := Nat.mod_eq_of_lt hsz
    simp only [expected_tx_time, hs1, hs2]
    exact pps_carry_closed _ _ (Nat.mod_lt _ (by norm_num [U32]))
  have hmmb : ((expected_tx_time st cfg.sampleRate frame.bufLen frame.sampleSize).1
        != frame.ts.timestamp_sec ||
      (expected_tx_time st cfg.sampleRate frame.bufLen frame.sampleSize).2
        != frame.ts.timestamp_pps) = true := by
    simp only [Bool.or_eq_true, bne_iff_ne, ne_eq]
    by_contra h
    push_neg at h
    exact hmm (Prod.ext h.1 h.2)
  have habort : device_time + TIMESTAMP_ABORT_FUTURE = device_time + 100 := rfl
  have hred : handle_frame cfg st true device_time frame
      = handle_frame_sync cfg st device_time frame := by
    simp [handle_frame, hsync, hvalid]
  rw [hred]
  simp only [handle_frame_sync, hvalid, Bool.not_true, Bool.false_eq_true,
    if_false, hinit, if_true, hmmb, habort]
  refine ⟨hexp, ?_, ?_, fun h1 h2 h3 => ?_⟩
  · split_ifs <;> rfl
  · split_ifs <;> simp
  · rw [if_neg h1, if_neg h2, if_neg (by simp [h3])]

/-- Witness for `C5_timestamp_irregularity`: after a frame at `(0, 0)`, a
next frame timestamped `(5, 0)` instead of the expected `(0, 16)` — for a
tiny 2-sample buffer at 2048000 S/s — is flagged, refresh-requested, and
still transmitted when the device clock stands at 4 s. -/
theorem C5_timestamp_irregularity_witness :
    expected_tx_time ⟨true, 0, 0⟩ 2048000 8 4 = (0, 16) ∧
    (handle_frame ⟨true, false, false, 2048000, 30⟩ ⟨true, 0, 0⟩ true 4
        ⟨8, 4, ⟨0, true, 5, 0, false⟩⟩).warnedIrregularity = true ∧
    (handle_frame ⟨true, false, false, 2048000, 30⟩ ⟨true, 0, 0⟩ true 4
        ⟨8, 4, ⟨0, true, 5, 0, false⟩⟩).outcome = HFOutcome.transmitted := by
  have h := C5_timestamp_irregularity ⟨true, false, false, 2048000, 30⟩ ⟨true, 0, 0⟩ 4
      ⟨8, 4, ⟨0, true, 5, 0, false⟩⟩ rfl rfl rfl (by norm_num [U64]) (by decide)
  refine ⟨by decide, h.2.1, h.2.2.2 ?_ ?_ rfl⟩
  · norm_num [FrameTimestamp.get_real_secs]
  · norm_num [FrameTimestamp.get_real_secs]

/-- Claim C6: `SDR::process_metadata` pushes with bound
`FRAMES_MAX_SIZE_SYNC = 250` when `enableSync` and
`FRAMES_MAX_SIZE_UNSYNC = 8` otherwise; below the bound the frame is
appended without overflow, at the bound the oldest queued frame is
dropped, the new one enqueued, `overflowed = true` is reported and the
overflow counter grows by exactly one, and the queue length never exceeds
the bound. -/
theorem C6_queue_bound {α : Type} (sync : Bool) (q : List α) (item : α) (n : ℕ)
    (hq : q.length ≤ if sync then FRAMES_MAX_SIZE_SYNC else FRAMES_MAX_SIZE_UNSYNC) :
    (process_metadata_push sync q item n).1.length ≤ (if sync then 250 else 8) ∧
    (q.length < (if sync then 250 else 8) →
      process_metadata_push sync q item n = (q ++ [item], n, false)) ∧
    (q.length = (if sync then 250 else 8) →
      process_metadata_push sync q item n = (q.tail ++ [item], n + 1, true) ∧
      (q.tail ++ [item]).length = q.length) := by
  have hb : (if sync then FRAMES_MAX_SIZE_SYNC else FRAMES_MAX_SIZE_UNSYNC)
      = (if sync then 250 else 8) := by
    cases sync <;> rfl
  rw [hb] at hq
  by_cases hlt : q.length < (if sync then 250 else 8)
  · refine ⟨?_, fun _ => ?_, fun heq => by omega⟩
    · simp only [process_metadata_push, push_overflow, hb]
      rw [if_pos hlt]
      simp only [List.length_append, List.length_cons, List.length_nil]
      omega
    · simp only [process_metadata_push, push_overflow, hb]
      rw [if_pos hlt]
      rfl
  · have heq : q.length = (if sync then 250 else 8) := by omega
    have hpos : q ≠ [] := by
      intro hnil
      rw [hnil] at heq
      cases sync <;> simp at heq
    have htail : (q.tail ++ [item]).length = q.length := by
      simp only [List.length_append, List.length_tail, List.length_cons,
        List.length_nil]
      have : 0 < q.length := List.length_pos.mpr hpos
      omega
    refine ⟨?_, fun h => by omega, fun _ => ⟨?_, htail⟩⟩
    · simp only [process_metadata_push, push_overflow, hb]
      rw [if_neg hlt]
      simp only []
      omega
    · simp only [process_metadata_push, push_overflow, hb]
      rw [if_neg hlt]
      simp [htail, heq]

/-- Witness for `C6_queue_bound`: an unsynchronised queue holding 8 frames
overflows on the ninth push, drops the oldest and ends at length 8. -/
theorem C6_queue_bound_witness :
    process_metadata_push false [0, 1, 2, 3, 4, 5, 6, 7] (8 : ℕ) 0 =
      ([1, 2, 3, 4, 5, 6, 7, 8], 1, true) ∧
    ([0, 1, 2, 3, 4, 5, 6, 7].tail ++ [8] : List ℕ).length = 8 := by
  have h := (C6_queue_bound false [0, 1, 2, 3, 4, 5, 6, 7] (8 : ℕ) 0
      (by simp [FRAMES_MAX_SIZE_UNSYNC])).2.2 (by simp)
  simpa using h

/-- Claim C10: whenever `Dexter::transmit_frame` reaches the push stage
with the channel up, `num_frames_modulated` grows by exactly one, also
when a negative `iio_buffer_push` result aborts the rest of the frame and
brings the channel down. -/
theorem C10_frames_counted (st : DexterTxState) (p0 p1 : ℤ)
    (h : st.channel_is_up = true) :
    (push_phase st p0 p1).num_frames_modulated = st.num_frames_modulated + 1 ∧
    (p0 < 0 → (push_phase st p0 p1).channel_is_up = false ∧
      (push_phase st p0 p1).num_buffers_pushed = 0) ∧
    (p0 ≥ 0 → p1 < 0 → (push_phase st p0 p1).channel_is_up = false ∧
      (push_phase st p0 p1).num_buffers_pushed = 0) := by
  simp only [push_phase, channel_down, h, if_true]
  split_ifs with h0 h1 <;> refine ⟨rfl, ?_, ?_⟩ <;> simp <;> omega

/-- Witness for `C10_frames_counted`: a frame whose first half-buffer push
fails is still counted as modulated while the channel goes down. -/
theorem C10_frames_counted_witness :
    (push_phase ⟨⟨DexterClockState.Normal, 7, 9, 0, 0⟩, true, false, 0, 41, 6, 123⟩
        (-1) 0).num_frames_modulated = 41 + 1 ∧
    (push_phase ⟨⟨DexterClockState.Normal, 7, 9, 0, 0⟩, true, false, 0, 41, 6, 123⟩
        (-1) 0).channel_is_up = false :=
  ⟨(C10_frames_counted _ (-1) 0 rfl).1,
   ((C10_frames_counted _ (-1) 0 rfl).2.1 (by norm_num)).1⟩

end ODRDabMod
